import Mathlib

/-!
Shallow embedding of the loclook Cloudflare worker (`src/index.js`).

JavaScript values that the worker stores in record fields are modelled by
`JSVal`, which distinguishes `undefined`, `null`, strings and numbers, so
that both JS truthiness (`!x`) and strict null comparison (`x !== null`)
can be expressed faithfully.  Request headers are modelled as a lookup
function from header name to optional string (`Headers.get` returns `null`
in JS for an absent header, modelled by `none`).  Numbers are modelled as
integers: the worker only ever branches on truthiness and strict-null
tests of parsed numbers, and all concrete inputs used below are integral,
so constraining `parseFloat` to integral strings (anything else becomes
`nan`) preserves every branch the theorems exercise.
-/

namespace LocLook

/-- A JavaScript runtime value as stored in the worker's records. -/
inductive JSVal where
  | undefined
  | null
  | nan
  | str (s : String)
  | num (n : Int)
deriving Repr, DecidableEq

/-- JS truthiness: `undefined`, `null`, `NaN`, `""` and `0` are falsy. -/
def JSVal.truthy : JSVal → Bool
  | .undefined => false
  | .null => false
  | .nan => false
  | .str s => s ≠ ""
  | .num n => n ≠ 0

/-- JS strict comparison `v !== null`: everything except `null` passes,
in particular `undefined` does. -/
def JSVal.strictNeNull : JSVal → Bool
  | .null => false
  | _ => true

/-- JS `v || null`: keep a truthy value, otherwise `null`. -/
def JSVal.orNull (v : JSVal) : JSVal := if v.truthy then v else .null

/-- The request-header lookup capability (`request.headers`). -/
abbrev Headers := String → Option String

/-- `headers.get(name)`: `none` models JS `null` for an absent header. -/
def Headers.get (headers : Headers) (name : String) : Option String :=
  headers name

/-- Truthiness of a `headers.get` result: present and non-empty. -/
def headerTruthy : Option String → Bool
  | none => false
  | some s => s ≠ ""

/-- JS `a || b` where `a` is a `headers.get` result and `b` a string. -/
def jsOrString (a : Option String) (b : String) : String :=
  match a with
  | none => b
  | some s => if s = "" then b else s

/-- A `headers.get(name) || null` field value. -/
def headerOrNull (headers : Headers) (name : String) : JSVal :=
  match headers.get name with
  | none => .null
  | some s => if s = "" then .null else .str s

/-- `Math.round(num / den)` for a non-negative rational, as exact integer
arithmetic: `floor(num/den + 1/2) = (2*num + den) / (2*den)` in `Nat`
division.  The worker computes `Math.round((a / 7) * 100)` in IEEE doubles;
for every reachable numerator (`a ≤ 7`) the double result coincides with
the exact rational rounding modelled here. -/
def mathRound (num den : Nat) : Nat := (2 * num + den) / (2 * den)

/-- JS `s.includes(c)` for a single character `c`. -/
def includesChar (s : String) (c : Char) : Bool := s.data.contains c

/-- Accumulate a base-10 numeral from a list of digit characters. -/
def natFromDigits (acc : Nat) : List Char → Option Nat
  | [] => some acc
  | c :: cs =>
    if c.isDigit then natFromDigits (10 * acc + (c.toNat - 48)) cs else none

/-- Read an optionally-signed base-10 integer from a string. -/
def readIntString (s : String) : Option Int :=
  match s.data with
  | [] => none
  | '-' :: c :: cs => (natFromDigits 0 (c :: cs)).map (fun n => -(n : Int))
  | cs => (natFromDigits 0 cs).map (fun n => (n : Int))

/-- JS `parseFloat`, modelled on strings denoting integers; any other
string is modelled as `nan`.  (The worker only branches on truthiness and
strict-null tests of the result, and the development only evaluates this
at integral strings.) -/
def parseFloatJS (s : String) : JSVal :=
  match readIntString s with
  | some n => .num n
  | none => .nan

/-- JS `parseInt(s, 10)`, modelled on strings denoting integers. -/
def parseIntJS (s : String) : JSVal :=
  match readIntString s with
  | some n => .num n
  | none => .nan

/-- The post-extraction numeric coercion
`if (x) x = parseFloat(x)` applied to a field holding a header string or
`null`. -/
def parseFloatField (v : JSVal) : JSVal :=
  if v.truthy then
    match v with
    | .str s => parseFloatJS s
    | other => other
  else v

/-- The post-extraction numeric coercion
`if (x) x = parseInt(x, 10)` applied to a field holding a header string or
`null`. -/
def parseIntField (v : JSVal) : JSVal :=
  if v.truthy then
    match v with
    | .str s => parseIntJS s
    | other => other
  else v

/-- The `{score, level, availableFields, totalFields}` object returned by
both quality scorers. -/
structure QualityScore where
  score : Nat
  level : String
  availableFields : Nat
  totalFields : Nat
deriving Repr, DecidableEq

/-- The `dataQuality` object on a location record.  The handler for the
enhanced route later mutates it by adding `enhanced` and `enhancedScore`
properties; absence of those properties is modelled by `none`. -/
structure QualityAssessment extends QualityScore where
  enhanced : Option Bool
  enhancedScore : Option QualityScore
deriving Repr, DecidableEq

/-- The seven header names inspected by `calculateDataQuality`. -/
def dataQualityFields : List String :=
  ["CF-IPCountry", "CF-Region", "CF-IPCity", "CF-IPLatitude",
   "CF-IPLongitude", "CF-Timezone", "CF-IPPostalCode"]

/-- `calculateDataQuality(headers)` from `src/index.js` lines 11-39. -/
def calculateDataQuality (headers : Headers) : QualityAssessment :=
  let fields := dataQualityFields
  let availableFields :=
    (fields.filter (fun field => headerTruthy (headers.get field))).length
  let totalFields := fields.length
  let percentage := mathRound (100 * availableFields) totalFields
  let quality :=
    if percentage ≥ 80 then "excellent"
    else if percentage ≥ 60 then "good"
    else if percentage ≥ 40 then "fair"
    else if percentage ≥ 20 then "limited"
    else "minimal"
  { score := percentage
    level := quality
    availableFields := availableFields
    totalFields := totalFields
    enhanced := none
    enhancedScore := none }

/-- The score-to-level threshold ladder of `calculateDataQuality`
(lines 26-31): `quality` starts at the defensive default `'unknown'` and
is reassigned by a complete `if`/`else` chain. -/
def levelForScore (score : Nat) : String :=
  let quality := "unknown"
  let quality :=
    if score ≥ 80 then "excellent"
    else if score ≥ 60 then "good"
    else if score ≥ 40 then "fair"
    else if score ≥ 20 then "limited"
    else "minimal"
  quality

/-- The normalized copy of the external service's reply stored at
`locationData.fallback` (lines 94-103). -/
structure FallbackRecord where
  source : String
  city : JSVal
  region : JSVal
  latitude : JSVal
  longitude : JSVal
  timezone : JSVal
  postalCode : JSVal
  org : JSVal
deriving Repr, DecidableEq

/-- The fields the worker consumes from the external service's parsed JSON
body (`fallbackData`); an absent property reads as `undefined`. -/
structure FallbackData where
  city : JSVal
  region : JSVal
  latitude : JSVal
  longitude : JSVal
  timezone : JSVal
  postal : JSVal
  org : JSVal
deriving Repr, DecidableEq

/-- The `locationData` record built by `extractLocationData` and possibly
mutated by the enhanced handler.  Absent `fallback` / `fallbackError`
properties are modelled by `none`. -/
structure LocationRecord where
  ip : String
  country : JSVal
  region : JSVal
  regionCode : JSVal
  city : JSVal
  postalCode : JSVal
  timezone : JSVal
  latitude : JSVal
  longitude : JSVal
  metroCode : JSVal
  continent : JSVal
  asn : JSVal
  colo : JSVal
  timestamp : String
  userAgent : JSVal
  acceptLanguage : JSVal
  requestId : JSVal
  visitorId : JSVal
  ipType : String
  dataQuality : QualityAssessment
  fallback : Option FallbackRecord
  fallbackError : Option String
deriving Repr, DecidableEq

/-- `extractLocationData(request)` from lines 174-229.  The request-time
clock value `new Date().toISOString()` is passed in as `now`; the header
lookup subsumes the platform's case-insensitive access. -/
def extractLocationData (now : String) (headers : Headers) : LocationRecord :=
  let ip := jsOrString (headers.get "CF-Connecting-IP")
    (jsOrString
      ((headers.get "X-Forwarded-For").map
        (fun s => ((s.splitOn ",").headD "").trim))
      "unknown")
  let locationData : LocationRecord :=
    { ip := ip
      country := headerOrNull headers "CF-IPCountry"
      region := headerOrNull headers "CF-Region"
      regionCode := headerOrNull headers "CF-Region-Code"
      city := headerOrNull headers "CF-IPCity"
      postalCode := headerOrNull headers "CF-postal-code"
      timezone := headerOrNull headers "CF-Timezone"
      latitude := headerOrNull headers "CF-IPLatitude"
      longitude := headerOrNull headers "CF-IPLongitude"
      metroCode := headerOrNull headers "CF-MetroCode"
      continent := headerOrNull headers "CF-IPContinent"
      asn := headerOrNull headers "CF-ASN"
      colo :=
        match headers.get "CF-Ray" with
        | none => .null
        | some s =>
          match (s.splitOn "-")[1]? with
          | none => .null
          | some seg => if seg = "" then .null else .str seg
      timestamp := now
      userAgent := headerOrNull headers "User-Agent"
      acceptLanguage := headerOrNull headers "Accept-Language"
      requestId := headerOrNull headers "CF-Ray"
      visitorId := headerOrNull headers "CF-Visitor"
      ipType := if includesChar ip ':' then "IPv6" else "IPv4"
      dataQuality := calculateDataQuality headers
      fallback := none
      fallbackError := none }
  { locationData with
    latitude := parseFloatField locationData.latitude
    longitude := parseFloatField locationData.longitude
    metroCode := parseIntField locationData.metroCode
    asn := parseIntField locationData.asn }

/-- The seven record attribute names inspected by
`calculateEnhancedDataQuality`. -/
def mainFields : List String :=
  ["country", "region", "city", "latitude", "longitude", "timezone",
   "postalCode"]

/-- Dynamic field access `locationData[field]` for the names in
`mainFields`. -/
def LocationRecord.getField (locationData : LocationRecord)
    (field : String) : JSVal :=
  if field = "country" then locationData.country
  else if field = "region" then locationData.region
  else if field = "city" then locationData.city
  else if field = "latitude" then locationData.latitude
  else if field = "longitude" then locationData.longitude
  else if field = "timezone" then locationData.timezone
  else if field = "postalCode" then locationData.postalCode
  else .undefined

/-- `calculateEnhancedDataQuality(locationData)` from lines 244-262. -/
def calculateEnhancedDataQuality (locationData : LocationRecord) :
    QualityScore :=
  let availableFields :=
    (mainFields.filter
      (fun field => (locationData.getField field).strictNeNull)).length
  let percentage := mathRound (100 * availableFields) mainFields.length
  let quality :=
    if percentage ≥ 80 then "excellent"
    else if percentage ≥ 60 then "good"
    else if percentage ≥ 40 then "fair"
    else if percentage ≥ 20 then "limited"
    else "minimal"
  { score := percentage
    level := quality
    availableFields := availableFields
    totalFields := mainFields.length }

/-- Outcome of the awaited outbound call
`fetch('https://ipapi.co/<ip>/json/')` followed by `.json()`. -/
inductive FetchOutcome where
  | networkError (message : String)
  | notOk
  | badJson (message : String)
  | ok (fallbackData : FallbackData)
deriving Repr, DecidableEq

/-- The observable result of `handleEnhancedLocationRequest`: HTTP status,
serialized record, and whether the outbound fetch on line 89 was
executed. -/
structure EnhancedResponse where
  status : Nat
  record : LocationRecord
  attemptedFallback : Bool
deriving Repr, DecidableEq

/-- `handleEnhancedLocationRequest(request, env)` from lines 81-141, with
the awaited outbound call's outcome passed in as `outcome`.  On a response
with `ok == false` the merge block is skipped and nothing is recorded; on
a thrown network or JSON-parse error the message lands in
`fallbackError`.  The outer catch is unreachable (extraction is total), so
the status is always 200. -/
def handleEnhancedLocationRequest (now : String) (headers : Headers)
    (outcome : FetchOutcome) : EnhancedResponse :=
  let locationData := extractLocationData now headers
  if locationData.dataQuality.level = "minimal" ∨
      locationData.dataQuality.level = "limited" then
    match outcome with
    | .networkError message =>
      { status := 200
        record := { locationData with fallbackError := some message }
        attemptedFallback := true }
    | .notOk =>
      { status := 200, record := locationData, attemptedFallback := true }
    | .badJson message =>
      { status := 200
        record := { locationData with fallbackError := some message }
        attemptedFallback := true }
    | .ok fallbackData =>
      let locationData := { locationData with
        fallback := some
          { source := "ipapi.co"
            city := fallbackData.city.orNull
            region := fallbackData.region.orNull
            latitude := fallbackData.latitude.orNull
            longitude := fallbackData.longitude.orNull
            timezone := fallbackData.timezone.orNull
            postalCode := fallbackData.postal.orNull
            org := fallbackData.org.orNull } }
      let locationData := { locationData with
        city := if ¬ locationData.city.truthy then fallbackData.city
          else locationData.city
        region := if ¬ locationData.region.truthy then fallbackData.region
          else locationData.region
        latitude := if ¬ locationData.latitude.truthy then
            fallbackData.latitude
          else locationData.latitude
        longitude := if ¬ locationData.longitude.truthy then
            fallbackData.longitude
          else locationData.longitude
        timezone := if ¬ locationData.timezone.truthy then
            fallbackData.timezone
          else locationData.timezone
        postalCode := if ¬ locationData.postalCode.truthy then
            fallbackData.postal
          else locationData.postalCode }
      let locationData := { locationData with
        dataQuality := { locationData.dataQuality with
          enhanced := some true
          enhancedScore := some (calculateEnhancedDataQuality locationData) } }
      { status := 200, record := locationData, attemptedFallback := true }
  else
    { status := 200, record := locationData, attemptedFallback := false }

/-- The branch the `fetch` dispatcher (lines 42-76) selects. -/
inductive Dispatch where
  | handleCORS
  | handleLocationRequest
  | handleEnhancedLocationRequest
  | healthResponse
  | notFoundResponse
deriving Repr, DecidableEq

/-- Route dispatch of the worker's `fetch(request, env, ctx)`. -/
def fetchDispatch (method : String) (pathname : String) : Dispatch :=
  if method = "OPTIONS" then .handleCORS
  else if pathname = "/location" ∨ pathname = "/" then
    .handleLocationRequest
  else if pathname = "/location-enhanced" then
    .handleEnhancedLocationRequest
  else if pathname = "/health" then .healthResponse
  else .notFoundResponse

/-- Status and body of a directly-constructed response. -/
structure SimpleResponse where
  status : Nat
  body : String
deriving Repr, DecidableEq

/-- The response built for unknown routes (lines 70-74):
`new Response('Not Found', \x7b status: 404, ... \x7d)`. -/
def notFoundResponse : SimpleResponse := { status := 404, body := "Not Found" }

/-! ### Spec-side definitions and concrete inputs used by the theorems -/

/-- Spec-side count, phrased from the specification: the number of the
seven designated geolocation fields that are present (non-null and
non-empty) in the header set. -/
def specPresentCount (headers : Headers) : Nat :=
  dataQualityFields.countP (fun field => headerTruthy (headers.get field))

/-- Spec-side count of the seven designated attributes that are actually
set (carry a string or numeric value, as opposed to `null` or
`undefined`) on a record. -/
def setAttributeCount (locationData : LocationRecord) : Nat :=
  mainFields.countP (fun field =>
    match locationData.getField field with
    | .null => false
    | .undefined => false
    | _ => true)

/-- Rank of a quality tier in the spec's ladder, for stating
monotonicity of the thresholds. -/
def levelRank : String → Nat
  | "minimal" => 0
  | "limited" => 1
  | "fair" => 2
  | "good" => 3
  | "excellent" => 4
  | _ => 5

/-- A request carrying no headers at all. -/
def noHeaders : Headers := fun _ => none

/-- Scenario C headers: only the connecting-IP header, with an IPv6
value. -/
def headersScenarioC : Headers := fun name =>
  if name = "CF-Connecting-IP" then some "2001:db8::1" else none

/-- Headers whose only geolocation signal is a latitude of `"0"`. -/
def headersLatZero : Headers := fun name =>
  if name = "CF-IPLatitude" then some "0"
  else if name = "CF-Connecting-IP" then some "1.2.3.4" else none

/-- Headers with exactly one geolocation field (a city). -/
def headersCityOnly : Headers := fun name =>
  if name = "CF-IPCity" then some "Berlin" else none

/-- Headers with three of the seven designated fields, which score 43
and land in the `fair` tier. -/
def headersFair : Headers := fun name =>
  if name = "CF-IPCountry" then some "US"
  else if name = "CF-Region" then some "California"
  else if name = "CF-IPCity" then some "San Francisco" else none

/-- Scenario E headers: an IP but no geolocation fields, so the baseline
level is `minimal`. -/
def headersScenarioE : Headers := fun name =>
  if name = "CF-Connecting-IP" then some "1.2.3.4" else none

/-- Scenario E external reply: only `city` and `region` present. -/
def fallbackParis : FallbackData :=
  { city := .str "Paris", region := .str "IDF", latitude := .undefined,
    longitude := .undefined, timezone := .undefined, postal := .undefined,
    org := .undefined }

/-- An external reply carrying only a numeric latitude. -/
def fallbackLatFive : FallbackData :=
  { city := .undefined, region := .undefined, latitude := .num 5,
    longitude := .undefined, timezone := .undefined, postal := .undefined,
    org := .undefined }

/-! ### Supporting lemmas -/

/-- `mathRound` is the mathematical rounding of the exact rational
`num / den`. -/
theorem mathRound_eq_round (num den : Nat) (hden : 0 < den) :
    (mathRound num den : ℤ) = round ((num : ℚ) / (den : ℚ)) := by
  have h2 : 0 < 2 * den := by omega
  have hq : (0 : ℚ) < ((2 * den : ℕ) : ℚ) := by exact_mod_cast h2
  have hd0 : (den : ℚ) ≠ 0 := by
    have : (0 : ℚ) < (den : ℚ) := by exact_mod_cast hden
    exact this.ne'
  have hlow : mathRound num den * (2 * den) ≤ 2 * num + den :=
    Nat.div_mul_le_self (2 * num + den) (2 * den)
  have hmod : (2 * num + den) % (2 * den) < 2 * den :=
    Nat.mod_lt _ h2
  have hdm := Nat.div_add_mod (2 * num + den) (2 * den)
  have hhigh : 2 * num + den < (mathRound num den + 1) * (2 * den) := by
    have expand : (mathRound num den + 1) * (2 * den)
        = 2 * den * ((2 * num + den) / (2 * den)) + 2 * den := by
      unfold mathRound; ring
    omega
  have hx : (num : ℚ) / (den : ℚ) + 1 / 2
      = ((2 * num + den : ℕ) : ℚ) / ((2 * den : ℕ) : ℚ) := by
    push_cast
    field_simp
    ring
  rw [round_eq, hx]
  symm
  rw [Int.floor_eq_iff]
  constructor
  · rw [le_div_iff₀ hq]
    exact_mod_cast hlow
  · rw [div_lt_iff₀ hq]
    exact_mod_cast hhigh

/-- The threshold ladder, written as a single conditional chain. -/
theorem levelForScore_eq (s : Nat) :
    levelForScore s =
      if s ≥ 80 then "excellent"
      else if s ≥ 60 then "good"
      else if s ≥ 40 then "fair"
      else if s ≥ 20 then "limited"
      else "minimal" := rfl

/-- Rank of the ladder's output, as a numeric conditional chain. -/
theorem levelRank_levelForScore (s : Nat) :
    levelRank (levelForScore s) =
      if s ≥ 80 then 4
      else if s ≥ 60 then 3
      else if s ≥ 40 then 2
      else if s ≥ 20 then 1
      else 0 := by
  rw [levelForScore_eq]
  split_ifs <;> rfl

/-! ### Claim theorems -/

/-- C1: for every header set, the quality assessment produced by the raw
scorer satisfies `score == round(100 * availableFields / totalFields)`,
where `availableFields` is the count of the seven designated fields that
are present (non-null/non-empty) and `totalFields == 7`. -/
theorem c1_score_is_rounded_ratio (headers : Headers) :
    ((calculateDataQuality headers).score : ℤ)
      = round ((100 * (specPresentCount headers : ℚ)) / 7) ∧
    (calculateDataQuality headers).availableFields
      = specPresentCount headers ∧
    (calculateDataQuality headers).totalFields = 7 := by
  have hcount : specPresentCount headers
      = (dataQualityFields.filter
          (fun field => headerTruthy (headers.get field))).length := by
    simp [specPresentCount, List.countP_eq_length_filter]
  refine ⟨?_, ?_, rfl⟩
  · have h := mathRound_eq_round (100 * specPresentCount headers) 7
      (by norm_num)
    have harg : (((100 * specPresentCount headers : ℕ) : ℚ) / ((7 : ℕ) : ℚ))
        = (100 * (specPresentCount headers : ℚ)) / 7 := by
      push_cast
      ring
    rw [harg] at h
    rw [← h]
    have hscore : (calculateDataQuality headers).score
        = mathRound (100 * specPresentCount headers) 7 := by
      simp [calculateDataQuality, hcount, dataQualityFields]
    rw [hscore]
  · simp [calculateDataQuality, hcount]

/-- C6: for every score in `[0,100]`, the quality level is determined by
the thresholds evaluated highest-first (`>=80` excellent, `>=60` good,
`>=40` fair, `>=20` limited, else minimal), the scorer's defensive
default `unknown` is unreachable, and the raw scorer's level is exactly
the ladder applied to its score. -/
theorem c6_level_ladder (s : Nat) (hs : s ≤ 100) (headers : Headers) :
    levelForScore s ≠ "unknown" ∧
    (80 ≤ s → levelForScore s = "excellent") ∧
    (60 ≤ s → s < 80 → levelForScore s = "good") ∧
    (40 ≤ s → s < 60 → levelForScore s = "fair") ∧
    (20 ≤ s → s < 40 → levelForScore s = "limited") ∧
    (s < 20 → levelForScore s = "minimal") ∧
    (calculateDataQuality headers).level
      = levelForScore (calculateDataQuality headers).score := by
  refine ⟨?_, ?_, ?_, ?_, ?_, ?_, rfl⟩
  · rw [levelForScore_eq]
    split_ifs <;> decide
  · intro h80
    rw [levelForScore_eq, if_pos (by omega)]
  · intro h60 h80
    rw [levelForScore_eq, if_neg (by omega), if_pos (by omega)]
  · intro h40 h60
    rw [levelForScore_eq, if_neg (by omega), if_neg (by omega),
      if_pos (by omega)]
  · intro h20 h40
    rw [levelForScore_eq, if_neg (by omega), if_neg (by omega),
      if_neg (by omega), if_pos (by omega)]
  · intro h20
    rw [levelForScore_eq, if_neg (by omega), if_neg (by omega),
      if_neg (by omega), if_neg (by omega)]

/-- Witness for C6 at score 85 and the empty header set. -/
theorem c6_level_ladder_witness :
    levelForScore 85 ≠ "unknown" ∧
    (80 ≤ 85 → levelForScore 85 = "excellent") ∧
    (60 ≤ 85 → 85 < 80 → levelForScore 85 = "good") ∧
    (40 ≤ 85 → 85 < 60 → levelForScore 85 = "fair") ∧
    (20 ≤ 85 → 85 < 40 → levelForScore 85 = "limited") ∧
    (85 < 20 → levelForScore 85 = "minimal") ∧
    (calculateDataQuality noHeaders).level
      = levelForScore (calculateDataQuality noHeaders).score :=
  c6_level_ladder 85 (by omega) noHeaders

/-- C7 counterexample: the claim asserts the scorer maps score 79 to
`fair`, but the threshold ladder maps 79 (which is `≥ 60` and `< 80`) to
`good`. -/
theorem c7_counterexample :
    levelForScore 79 = "good" ∧ levelForScore 79 ≠ "fair" := by decide

/-- C7 as amended: the level thresholds are monotonic and exhaustive over
scores in `[0,100]`, and in particular map 79 to `good` (not `fair`), 80
to `excellent`, and 0 to `minimal`. -/
theorem c7_thresholds_monotone (s t : Nat) (hst : s ≤ t) (ht : t ≤ 100) :
    levelRank (levelForScore s) ≤ levelRank (levelForScore t) ∧
    levelForScore s ∈ ["minimal", "limited", "fair", "good", "excellent"] ∧
    levelForScore 79 = "good" ∧
    levelForScore 80 = "excellent" ∧
    levelForScore 0 = "minimal" := by
  refine ⟨?_, ?_, by decide, by decide, by decide⟩
  · rw [levelRank_levelForScore, levelRank_levelForScore]
    split_ifs <;> omega
  · rw [levelForScore_eq]
    split_ifs <;> simp

/-- Witness for C7 at scores 3 and 97. -/
theorem c7_thresholds_monotone_witness :
    levelRank (levelForScore 3) ≤ levelRank (levelForScore 97) ∧
    levelForScore 3 ∈ ["minimal", "limited", "fair", "good", "excellent"] ∧
    levelForScore 79 = "good" ∧
    levelForScore 80 = "excellent" ∧
    levelForScore 0 = "minimal" :=
  c7_thresholds_monotone 3 97 (by omega) (by omega)

/-- C8: for every request, the extracted record's `ipType` is `IPv6` iff
the resolved IP string contains a colon; the connecting-IP value
`"2001:db8::1"` yields `IPv6`; with no IP header at all the resolved IP
is the literal `"unknown"` and `ipType` is `IPv4`. -/
theorem c8_ipType_iff_colon (now : String) (headers : Headers) :
    ((extractLocationData now headers).ipType = "IPv6" ↔
      includesChar (extractLocationData now headers).ip ':' = true) ∧
    (headers.get "CF-Connecting-IP" = none →
      headers.get "X-Forwarded-For" = none →
      (extractLocationData now headers).ip = "unknown" ∧
      (extractLocationData now headers).ipType = "IPv4") ∧
    (extractLocationData now headersScenarioC).ipType = "IPv6" := by
  have hip : (extractLocationData now headers).ip
      = jsOrString (headers.get "CF-Connecting-IP")
          (jsOrString
            ((headers.get "X-Forwarded-For").map
              (fun s => ((s.splitOn ",").headD "").trim))
            "unknown") := rfl
  have hty : (extractLocationData now headers).ipType
      = if includesChar (extractLocationData now headers).ip ':' then "IPv6"
        else "IPv4" := rfl
  refine ⟨?_, ?_, ?_⟩
  · rw [hty]
    by_cases hc : includesChar (extractLocationData now headers).ip ':' = true
    · rw [if_pos hc]
      simp [hc]
    · rw [if_neg hc]
      simp [hc]
  · intro h1 h2
    have hipu : (extractLocationData now headers).ip = "unknown" := by
      rw [hip, h1, h2]
      rfl
    refine ⟨hipu, ?_⟩
    rw [hty, hipu]
    rw [if_neg (by decide)]
  · rw [show (extractLocationData now headersScenarioC).ipType
        = if includesChar "2001:db8::1" ':' then "IPv6" else "IPv4"
        from rfl, if_pos (by decide)]

/-- Witness for C8 at the empty header set. -/
theorem c8_ipType_iff_colon_witness :
    (extractLocationData "t" noHeaders).ip = "unknown" ∧
    (extractLocationData "t" noHeaders).ipType = "IPv4" :=
  (c8_ipType_iff_colon "t" noHeaders).2.1 rfl rfl

/-- C9 counterexample: the claim asserts unknown routes return an empty
body, but the worker builds the 404 response with the body
`'Not Found'`. -/
theorem c9_counterexample :
    fetchDispatch "GET" "/nope" = Dispatch.notFoundResponse ∧
    notFoundResponse.status = 404 ∧
    notFoundResponse.body = "Not Found" ∧
    notFoundResponse.body ≠ "" := by decide

/-- C9 as amended: every GET request whose path is none of `/`,
`/location`, `/location-enhanced`, `/health` is dispatched to the 404
response, whose status is 404 and whose body is the string
`'Not Found'` (not empty). -/
theorem c9_unknown_route_404 (pathname : String)
    (h1 : pathname ≠ "/") (h2 : pathname ≠ "/location")
    (h3 : pathname ≠ "/location-enhanced") (h4 : pathname ≠ "/health") :
    fetchDispatch "GET" pathname = Dispatch.notFoundResponse ∧
    notFoundResponse.status = 404 ∧
    notFoundResponse.body = "Not Found" := by
  refine ⟨?_, rfl, rfl⟩
  simp only [fetchDispatch]
  rw [if_neg (by decide), if_neg (fun hc => hc.elim h2 h1), if_neg h3,
    if_neg h4]

/-- Witness for C9 at the path `"/foo"`. -/
theorem c9_unknown_route_404_witness :
    fetchDispatch "GET" "/foo" = Dispatch.notFoundResponse ∧
    notFoundResponse.status = 404 ∧
    notFoundResponse.body = "Not Found" :=
  c9_unknown_route_404 "/foo" (by decide) (by decide) (by decide)
    (by decide)

/-- C2 counterexample: the claim asserts that a non-2xx outbound response
attaches the failure's message as `fallbackError`, but the worker's
`if (fallbackResponse.ok)` has no else branch: at a `minimal` baseline
with a non-2xx outbound response the record carries no `fallbackError`
at all (while the status is still 200). -/
theorem c2_counterexample :
    (extractLocationData "t" noHeaders).dataQuality.level = "minimal" ∧
    (handleEnhancedLocationRequest "t" noHeaders
      FetchOutcome.notOk).status = 200 ∧
    (handleEnhancedLocationRequest "t" noHeaders
      FetchOutcome.notOk).record.fallbackError = none := by decide

/-- C2 as amended: at a `minimal` or `limited` baseline the response
status is always 200 whatever the outbound call does; a thrown network
error or an unparseable body attaches the caught message as
`fallbackError` and leaves the baseline record otherwise unmodified; a
non-2xx response leaves the baseline record entirely unmodified, without
any `fallbackError`. -/
theorem c2_enhancement_failure_isolated (now message : String)
    (headers : Headers) (outcome : FetchOutcome)
    (h : (extractLocationData now headers).dataQuality.level = "minimal" ∨
      (extractLocationData now headers).dataQuality.level = "limited") :
    (handleEnhancedLocationRequest now headers outcome).status = 200 ∧
    (handleEnhancedLocationRequest now headers
        (.networkError message)).record
      = { extractLocationData now headers with
          fallbackError := some message } ∧
    (handleEnhancedLocationRequest now headers (.badJson message)).record
      = { extractLocationData now headers with
          fallbackError := some message } ∧
    (handleEnhancedLocationRequest now headers .notOk).record
      = extractLocationData now headers := by
  refine ⟨?_, ?_, ?_, ?_⟩
  · cases outcome <;>
      (simp only [handleEnhancedLocationRequest]; split <;> rfl)
  · simp only [handleEnhancedLocationRequest]
    rw [if_pos h]
  · simp only [handleEnhancedLocationRequest]
    rw [if_pos h]
  · simp only [handleEnhancedLocationRequest]
    rw [if_pos h]

/-- Witness for C2 at the empty header set, message `"boom"`, and a
network-error outcome. -/
theorem c2_enhancement_failure_isolated_witness :
    (handleEnhancedLocationRequest "t" noHeaders
      (.networkError "boom")).status = 200 ∧
    (handleEnhancedLocationRequest "t" noHeaders
        (.networkError "boom")).record
      = { extractLocationData "t" noHeaders with
          fallbackError := some "boom" } ∧
    (handleEnhancedLocationRequest "t" noHeaders (.badJson "boom")).record
      = { extractLocationData "t" noHeaders with
          fallbackError := some "boom" } ∧
    (handleEnhancedLocationRequest "t" noHeaders .notOk).record
      = extractLocationData "t" noHeaders :=
  c2_enhancement_failure_isolated "t" "boom" noHeaders
    (.networkError "boom") (Or.inl (by decide))

/-- C4: the outbound enhancement call is attempted iff the baseline
level is `minimal` or `limited`; when the baseline level is `fair`,
`good` or `excellent` the handler returns the baseline record untouched,
with no `fallback`, `fallbackError`, `enhanced` or `enhancedScore`
fields. -/
theorem c4_enhancement_iff_low_quality (now : String) (headers : Headers)
    (outcome : FetchOutcome) :
    ((handleEnhancedLocationRequest now headers outcome).attemptedFallback
        = true ↔
      ((extractLocationData now headers).dataQuality.level = "minimal" ∨
        (extractLocationData now headers).dataQuality.level = "limited")) ∧
    (((extractLocationData now headers).dataQuality.level = "fair" ∨
      (extractLocationData now headers).dataQuality.level = "good" ∨
      (extractLocationData now headers).dataQuality.level = "excellent") →
      (handleEnhancedLocationRequest now headers outcome)
        = { status := 200, record := extractLocationData now headers,
            attemptedFallback := false } ∧
      (handleEnhancedLocationRequest now headers outcome).record.fallback
        = none ∧
      (handleEnhancedLocationRequest now headers
        outcome).record.fallbackError = none ∧
      (handleEnhancedLocationRequest now headers
        outcome).record.dataQuality.enhanced = none ∧
      (handleEnhancedLocationRequest now headers
        outcome).record.dataQuality.enhancedScore = none) := by
  by_cases hL : (extractLocationData now headers).dataQuality.level
        = "minimal" ∨
      (extractLocationData now headers).dataQuality.level = "limited"
  · constructor
    · simp only [handleEnhancedLocationRequest]
      rw [if_pos hL]
      cases outcome <;> simp [hL]
    · intro hHigh
      exfalso
      rcases hL with h | h <;> rcases hHigh with h2 | h2 | h2 <;>
        (rw [h] at h2; exact absurd h2 (by decide))
  · constructor
    · simp only [handleEnhancedLocationRequest]
      rw [if_neg hL]
      simp [hL]
    · intro _
      simp only [handleEnhancedLocationRequest]
      rw [if_neg hL]
      refine ⟨rfl, rfl, rfl, rfl, rfl⟩

/-- Witness for C4 at headers whose baseline quality is `fair`. -/
theorem c4_enhancement_iff_low_quality_witness :
    (handleEnhancedLocationRequest "t" headersFair FetchOutcome.notOk)
      = { status := 200, record := extractLocationData "t" headersFair,
          attemptedFallback := false } :=
  ((c4_enhancement_iff_low_quality "t" headersFair .notOk).2
    (Or.inl (by decide))).1

/-- C3 counterexample: the claim asserts a non-null baseline field keeps
its baseline value, but the merge guards use JS truthiness: a baseline
latitude of `0` (non-null, parsed from the header `"0"`) is falsy and is
overwritten by the fallback latitude. -/
theorem c3_counterexample :
    (extractLocationData "t" headersLatZero).latitude = JSVal.num 0 ∧
    JSVal.num 0 ≠ JSVal.null ∧
    (extractLocationData "t" headersLatZero).dataQuality.level
      = "minimal" ∧
    (handleEnhancedLocationRequest "t" headersLatZero
      (FetchOutcome.ok fallbackLatFive)).record.latitude
      = JSVal.num 5 := by decide

/-- C3 as amended: when escalation succeeds, the merge overwrites exactly
the fields among city/region/latitude/longitude/timezone/postalCode that
are falsy on the baseline record (null, undefined, NaN, empty string, or
zero); any baseline field whose value is truthy keeps its baseline
value. -/
theorem c3_merge_preserves_truthy (now : String) (headers : Headers)
    (fallbackData : FallbackData)
    (h : (extractLocationData now headers).dataQuality.level = "minimal" ∨
      (extractLocationData now headers).dataQuality.level = "limited") :
    ((extractLocationData now headers).city.truthy = true →
      (handleEnhancedLocationRequest now headers
        (.ok fallbackData)).record.city
        = (extractLocationData now headers).city) ∧
    ((extractLocationData now headers).city.truthy = false →
      (handleEnhancedLocationRequest now headers
        (.ok fallbackData)).record.city = fallbackData.city) ∧
    ((extractLocationData now headers).region.truthy = true →
      (handleEnhancedLocationRequest now headers
        (.ok fallbackData)).record.region
        = (extractLocationData now headers).region) ∧
    ((extractLocationData now headers).region.truthy = false →
      (handleEnhancedLocationRequest now headers
        (.ok fallbackData)).record.region = fallbackData.region) ∧
    ((extractLocationData now headers).latitude.truthy = true →
      (handleEnhancedLocationRequest now headers
        (.ok fallbackData)).record.latitude
        = (extractLocationData now headers).latitude) ∧
    ((extractLocationData now headers).latitude.truthy = false →
      (handleEnhancedLocationRequest now headers
        (.ok fallbackData)).record.latitude = fallbackData.latitude) ∧
    ((extractLocationData now headers).longitude.truthy = true →
      (handleEnhancedLocationRequest now headers
        (.ok fallbackData)).record.longitude
        = (extractLocationData now headers).longitude) ∧
    ((extractLocationData now headers).longitude.truthy = false →
      (handleEnhancedLocationRequest now headers
        (.ok fallbackData)).record.longitude = fallbackData.longitude) ∧
    ((extractLocationData now headers).timezone.truthy = true →
      (handleEnhancedLocationRequest now headers
        (.ok fallbackData)).record.timezone
        = (extractLocationData now headers).timezone) ∧
    ((extractLocationData now headers).timezone.truthy = false →
      (handleEnhancedLocationRequest now headers
        (.ok fallbackData)).record.timezone = fallbackData.timezone) ∧
    ((extractLocationData now headers).postalCode.truthy = true →
      (handleEnhancedLocationRequest now headers
        (.ok fallbackData)).record.postalCode
        = (extractLocationData now headers).postalCode) ∧
    ((extractLocationData now headers).postalCode.truthy = false →
      (handleEnhancedLocationRequest now headers
        (.ok fallbackData)).record.postalCode = fallbackData.postal) := by
  simp only [handleEnhancedLocationRequest]
  rw [if_pos h]
  refine ⟨?_, ?_, ?_, ?_, ?_, ?_, ?_, ?_, ?_, ?_, ?_, ?_⟩ <;>
    (intro ht; simp [ht])

/-- Witness for C3 at headers with only a city, merged with the
Paris reply: the truthy baseline city survives the merge. -/
theorem c3_merge_preserves_truthy_witness :
    (handleEnhancedLocationRequest "t" headersCityOnly
      (.ok fallbackParis)).record.city
      = (extractLocationData "t" headersCityOnly).city :=
  (c3_merge_preserves_truthy "t" headersCityOnly fallbackParis
    (Or.inl (by decide))).1 (by decide)

/-- C5, evaluated on the code at scenario E (baseline `minimal`, external
reply with only city `"Paris"` and region `"IDF"`): the merged record
carries city and region, the other four designated fields stay unset
(they become `undefined`), and `dataQuality.enhanced` is `true` — but
`enhancedScore.availableFields` comes out as 6 even though only 2 of the
7 designated attributes are set on the merged record, because the merge
writes the absent fallback values as `undefined` and the enhanced scorer
counts with `!== null`, which `undefined` passes. -/
theorem c5_scenarioE_availableFields :
    (extractLocationData "t" headersScenarioE).dataQuality.level
      = "minimal" ∧
    (handleEnhancedLocationRequest "t" headersScenarioE
      (.ok fallbackParis)).record.city = JSVal.str "Paris" ∧
    (handleEnhancedLocationRequest "t" headersScenarioE
      (.ok fallbackParis)).record.region = JSVal.str "IDF" ∧
    (handleEnhancedLocationRequest "t" headersScenarioE
      (.ok fallbackParis)).record.latitude = JSVal.undefined ∧
    (handleEnhancedLocationRequest "t" headersScenarioE
      (.ok fallbackParis)).record.longitude = JSVal.undefined ∧
    (handleEnhancedLocationRequest "t" headersScenarioE
      (.ok fallbackParis)).record.timezone = JSVal.undefined ∧
    (handleEnhancedLocationRequest "t" headersScenarioE
      (.ok fallbackParis)).record.postalCode = JSVal.undefined ∧
    (handleEnhancedLocationRequest "t" headersScenarioE
      (.ok fallbackParis)).record.dataQuality.enhanced = some true ∧
    (handleEnhancedLocationRequest "t" headersScenarioE
      (.ok fallbackParis)).record.dataQuality.enhancedScore
      = some { score := 86, level := "excellent", availableFields := 6,
               totalFields := 7 } ∧
    setAttributeCount (handleEnhancedLocationRequest "t" headersScenarioE
      (.ok fallbackParis)).record = 2 := by decide

/-- C10: the raw scorer and the enhanced scorer implement the identical
score formula and score-to-level threshold mapping — whenever they count
the same number of available fields out of 7, they produce the same
`{score, level, availableFields, totalFields}`. -/
theorem c10_scorers_agree (headers : Headers)
    (locationData : LocationRecord)
    (h : (calculateDataQuality headers).availableFields
      = (calculateEnhancedDataQuality locationData).availableFields) :
    (calculateDataQuality headers).toQualityScore
      = calculateEnhancedDataQuality locationData := by
  simp only [calculateDataQuality, calculateEnhancedDataQuality,
    dataQualityFields, mainFields, List.length_cons, List.length_nil] at h ⊢
  simp only [h]

/-- Witness for C10: the empty header set and the all-null record both
count zero available fields and receive identical assessments. -/
theorem c10_scorers_agree_witness :
    (calculateDataQuality noHeaders).toQualityScore
      = calculateEnhancedDataQuality (extractLocationData "t" noHeaders) :=
  c10_scorers_agree noHeaders (extractLocationData "t" noHeaders)
    (by decide)

end LocLook
